import Mathlib

/-
Verification development for the MortalCoin trading bot.

Each Python source function relevant to the frozen claims is shallowly
embedded as an executable Lean definition.  External effects (RPC calls,
HTTP requests, the websocket transport, random number generation, clocks)
are modelled as explicit per-step environments supplied to the embedded
function; machine integers are Nat/Int, floating point quantities that
only flow through comparisons and list bookkeeping are modelled as Rat.
-/

set_option autoImplicit false

namespace MortalCoin

/-- Does the second character list start with the first one? -/
def charsPrefix : List Char → List Char → Bool
  | [], _ => true
  | _ :: _, [] => false
  | p :: ps, c :: cs => p = c && charsPrefix ps cs

/-- Does the second character list occur inside the first one? -/
def charsContains : List Char → List Char → Bool
  | _, [] => true
  | [], _ :: _ => false
  | c :: cs, p :: ps => charsPrefix (p :: ps) (c :: cs) || charsContains cs (p :: ps)

/-- Python `pat in s` substring test. -/
def strContains (s pat : String) : Bool :=
  charsContains s.data pat.data

/-- Python truthiness of an optional string: `None` and `""` are falsy. -/
def optStrTruthy (o : Option String) : Bool :=
  match o with
  | none => false
  | some s => !(s = "")

/-! ## Ledger Transaction Submitter — src/blockchain/transactions.py -/

/-- `tx_params` dict passed to `build_sign_send_transaction`
(fee/gas/value overrides; absent keys are `none`). -/
structure TxParamsIn where
  gas : Option Nat
  gasPrice : Option Nat
  maxFeePerGas : Option Nat
  maxPriorityFeePerGas : Option Nat
  value : Nat
  deriving DecidableEq, Repr

/-- Result of `wait_for_transaction_receipt(computed_hash)` on the
already-known recovery path: a receipt with a status, or a raised error. -/
inductive WaitResult where
  | receipt (status : Nat)
  | waitError (msg : String)
  deriving DecidableEq, Repr

/-- Outcome of one attempt of the try-block up to (and including)
`wait_for_transaction_receipt(tx_hash)`:
either the transaction was broadcast and mined (receipt with `status`),
or some step raised an exception whose extracted lowercased message is
`msg` (`str(details.get('message',''))`/`str(exc)` lowercased). -/
inductive SendResult where
  | mined (txHash : String) (status : Nat)
  | sendError (msg : String)
  deriving DecidableEq, Repr

/-- The chain/provider environment consumed by one loop attempt. -/
structure AttemptEnv where
  /-- `web3.eth.get_transaction_count(addr, 'pending')` for this attempt. -/
  pendingNonce : Nat
  /-- `web3.eth.get_block('latest')['baseFeePerGas']`; `none` means the
  lookup raised and the legacy `gas_price` fallback is used. -/
  baseFeePerGas : Option Nat
  /-- `web3.eth.gas_price` (legacy fallback). -/
  nodeGasPrice : Nat
  /-- `web3.eth.estimate_gas`; `none` means estimation raised. -/
  estimatedGas : Option Nat
  /-- The raw signed transaction bytes (hex) produced by signing this
  attempt's transaction. -/
  signedRaw : String
  /-- Broadcast/mining outcome of this attempt. -/
  send : SendResult
  /-- Outcome of waiting on the locally recomputed hash (consulted only
  on the already-known path). -/
  wait : WaitResult
  deriving DecidableEq, Repr

/-- The transaction dict after skeleton build, None-removal, gas fill and
`_apply_default_fees`. -/
structure BuiltTx where
  nonce : Nat
  gas : Nat
  gasPrice : Option Nat
  maxFeePerGas : Option Nat
  maxPriorityFeePerGas : Option Nat
  value : Nat
  deriving DecidableEq, Repr

/-- `estimate_gas_with_buffer`: add `buffer_percent`% to the estimate
(`int(g * (1 + p/100))`), defaulting to 500000 when estimation raises. -/
def estimate_gas_with_buffer (estimated : Option Nat) (bufferPercent : Nat) : Nat :=
  match estimated with
  | some g => g * (100 + bufferPercent) / 100
  | none => 500000

/-- `int(x * fee_bump_factor)` for a nonnegative integer fee `x`, with the
bump factor given as the exact fraction `num / den` (the source default
1.15 is `23 / 20`). -/
def bumpFee (num den x : Nat) : Nat :=
  x * num / den

/-- `_apply_default_fees(tx, attempt_index)`: when neither pricing scheme
is present, install EIP-1559 defaults from the latest base fee (falling
back to the node gas price); on retry attempts multiply whichever scheme
is present by the bump factor `num / den`. -/
def apply_default_fees (num den : Nat) (env : AttemptEnv) (attemptIndex : Nat)
    (tx : BuiltTx) : BuiltTx :=
  let tx :=
    if tx.gasPrice = none ∧ tx.maxFeePerGas = none then
      match env.baseFeePerGas with
      | some baseFee =>
        let maxPriorityFee : Nat := 2000000000
        { tx with
          maxFeePerGas := some (baseFee * 2 + maxPriorityFee)
          maxPriorityFeePerGas := some maxPriorityFee
          gasPrice := none }
      | none => { tx with gasPrice := some env.nodeGasPrice }
    else tx
  if attemptIndex > 0 then
    match tx.maxFeePerGas, tx.maxPriorityFeePerGas with
    | some mf, some mp =>
      { tx with
        maxPriorityFeePerGas := some (bumpFee num den mp)
        maxFeePerGas := some (bumpFee num den mf) }
    | _, _ =>
      match tx.gasPrice with
      | some gp => { tx with gasPrice := some (bumpFee num den gp) }
      | none => tx
  else tx

/-- Skeleton build + None-removal + gas fill + `_apply_default_fees` for
one attempt: the transaction that attempt `attemptIndex` signs and sends. -/
def buildTx (params : TxParamsIn) (num den : Nat) (env : AttemptEnv)
    (attemptIndex : Nat) : BuiltTx :=
  let skeleton : BuiltTx :=
    { nonce := env.pendingNonce
      gas :=
        match params.gas with
        | some g => g
        | none => estimate_gas_with_buffer env.estimatedGas 20
      gasPrice := params.gasPrice
      maxFeePerGas := params.maxFeePerGas
      maxPriorityFeePerGas := params.maxPriorityFeePerGas
      value := params.value }
  apply_default_fees num den env attemptIndex skeleton

/-- Retryable message classes of the except-branch. -/
def isRetryableMsg (msg : String) : Bool :=
  strContains msg "nonce too low" ||
  strContains msg "replacement transaction underpriced" ||
  strContains msg "transaction underpriced"

/-- What the except-branch of one attempt decides to do. -/
inductive ExceptStep where
  | retOk (txHash : String) (status : Nat)
  | retry (lastError : String)
  | raiseErr (lastError : String)
  deriving DecidableEq, Repr

/-- Tail of the except-branch after already-known handling: sleep and
continue when the message is retryable and the budget allows, otherwise
break (raising `lastError`). -/
def afterRecovery (retries attemptIndex : Nat) (msg lastError : String) : ExceptStep :=
  if attemptIndex < retries ∧ isRetryableMsg msg then
    ExceptStep.retry lastError
  else
    ExceptStep.raiseErr lastError

/-- The except-branch of one attempt, given the lowercased message `msg`
of the caught exception: handle 'already known' by waiting on the locally
recomputed keccak hash of the signed raw transaction, then classify. -/
def exceptBranch (keccakHex : String → String) (retries attemptIndex : Nat)
    (env : AttemptEnv) (msg : String) : ExceptStep :=
  if strContains msg "already known" then
    match env.wait with
    | WaitResult.receipt s =>
      if s = 1 then ExceptStep.retOk (keccakHex env.signedRaw) s
      else
        afterRecovery retries attemptIndex msg
          ("transaction failed: " ++ keccakHex env.signedRaw)
    | WaitResult.waitError wm => afterRecovery retries attemptIndex msg wm
  else afterRecovery retries attemptIndex msg msg

/-- Final outcome of `build_sign_send_transaction`: the returned
`(tx_hash, receipt-status)` pair, or the raised error's message. -/
inductive TxOutcome where
  | ok (txHash : String) (receiptStatus : Nat)
  | error (msg : String)
  deriving DecidableEq, Repr

/-- Trace record for one executed attempt: the transaction it built and
how long it slept before continuing (0 when it did not sleep). -/
structure AttemptRecord where
  tx : BuiltTx
  sleptSeconds : ℚ
  deriving DecidableEq, Repr

/-- The retry loop of `build_sign_send_transaction`.  `fuel` counts the
remaining iterations of `for attempt in range(retries + 1)` (the function
is entered with `fuel = retries + 1`, `attemptIndex = 0`); `lastError`
is the `last_error` variable.  Returns the outcome together with the
trace of executed attempts. -/
def sendLoop (params : TxParamsIn) (keccakHex : String → String)
    (retrySleepSeconds : ℚ) (num den : Nat) (envs : Nat → AttemptEnv)
    (retries : Nat) :
    Nat → Nat → Option String → TxOutcome × List AttemptRecord
  | 0, _, lastError =>
    (match lastError with
     | some e => TxOutcome.error e
     | none => TxOutcome.error "unknown transaction error", [])
  | fuel + 1, attemptIndex, _ =>
    let env := envs attemptIndex
    let tx := buildTx params num den env attemptIndex
    let step : ExceptStep ⊕ (String × Nat) :=
      match env.send with
      | SendResult.mined h s =>
        if s = 1 then Sum.inr (h, s)
        else
          Sum.inl (exceptBranch keccakHex retries attemptIndex env
            ("transaction failed: " ++ h))
      | SendResult.sendError msg =>
        Sum.inl (exceptBranch keccakHex retries attemptIndex env msg)
    match step with
    | Sum.inr (h, s) => (TxOutcome.ok h s, [{ tx := tx, sleptSeconds := 0 }])
    | Sum.inl (ExceptStep.retOk h s) =>
      (TxOutcome.ok h s, [{ tx := tx, sleptSeconds := 0 }])
    | Sum.inl (ExceptStep.retry le) =>
      let rest := sendLoop params keccakHex retrySleepSeconds num den envs
        retries fuel (attemptIndex + 1) (some le)
      (rest.1, { tx := tx, sleptSeconds := retrySleepSeconds } :: rest.2)
    | Sum.inl (ExceptStep.raiseErr le) =>
      (TxOutcome.error le, [{ tx := tx, sleptSeconds := 0 }])

/-- `build_sign_send_transaction(web3, function_call, key, tx_params,
retries, retry_sleep_seconds, fee_bump_factor)`: runs the attempt loop
from attempt 0 with `retries + 1` iterations available.  Source defaults:
`retries = 2`, `retry_sleep_seconds = 0.3`, `fee_bump_factor = 1.15`. -/
def build_sign_send_transaction (params : TxParamsIn) (keccakHex : String → String)
    (retrySleepSeconds : ℚ) (num den : Nat) (envs : Nat → AttemptEnv)
    (retries : Nat) : TxOutcome × List AttemptRecord :=
  sendLoop params keccakHex retrySleepSeconds num den envs retries
    (retries + 1) 0 none

/-! ### Submitter lemmas -/

/-- The tail classifier never produces the recovery-return step. -/
theorem afterRecovery_ne_retOk (retries ai : Nat) (msg le h : String) (s : Nat) :
    afterRecovery retries ai msg le ≠ ExceptStep.retOk h s := by
  unfold afterRecovery
  split <;> simp

/-- Inversion: the except-branch returns a pair only via the already-known
recovery, and only with a success-status receipt for the locally
recomputed hash of the signed raw transaction. -/
theorem exceptBranch_retOk_inv (keccakHex : String → String) (retries ai : Nat)
    (env : AttemptEnv) (msg h : String) (s : Nat)
    (hE : exceptBranch keccakHex retries ai env msg = ExceptStep.retOk h s) :
    s = 1 ∧ env.wait = WaitResult.receipt s ∧ h = keccakHex env.signedRaw := by
  unfold exceptBranch at hE
  split at hE
  · cases hW : env.wait with
    | receipt s0 =>
      rw [hW] at hE
      dsimp only at hE
      by_cases hs0 : s0 = 1
      · rw [if_pos hs0] at hE
        cases hE
        exact ⟨hs0, by simp [hW], rfl⟩
      · rw [if_neg hs0] at hE
        exact absurd hE (afterRecovery_ne_retOk _ _ _ _ _ _)
    | waitError wm =>
      rw [hW] at hE
      dsimp only at hE
      exact absurd hE (afterRecovery_ne_retOk _ _ _ _ _ _)
  · exact absurd hE (afterRecovery_ne_retOk _ _ _ _ _ _)

/-- Any outcome the attempt loop reports as a success pair carries receipt
status 1, obtained from one of the executed attempts either as the mined
receipt of the broadcast hash or as the receipt awaited for the locally
recomputed hash on the already-known path. -/
theorem sendLoop_ok_inv (params : TxParamsIn) (keccakHex : String → String)
    (rs : ℚ) (num den : Nat) (envs : Nat → AttemptEnv) (retries : Nat) :
    ∀ (fuel ai : Nat) (le : Option String) (h : String) (s : Nat),
    (sendLoop params keccakHex rs num den envs retries fuel ai le).1 = TxOutcome.ok h s →
    s = 1 ∧ ∃ k, ai ≤ k ∧ k < ai + fuel ∧
      ((envs k).send = SendResult.mined h s ∨
        ((envs k).wait = WaitResult.receipt s ∧ h = keccakHex (envs k).signedRaw)) := by
  intro fuel
  induction fuel with
  | zero =>
    intro ai le h s hr
    cases le <;> simp [sendLoop] at hr
  | succ n ih =>
    intro ai le h s hr
    rw [sendLoop] at hr
    cases hsend : (envs ai).send with
    | mined h0 s0 =>
      rw [hsend] at hr
      dsimp only at hr
      by_cases hs0 : s0 = 1
      · rw [if_pos hs0] at hr
        simp at hr
        obtain ⟨rfl, rfl⟩ := hr
        exact ⟨hs0, ai, le_refl ai, by omega, Or.inl hsend⟩
      · rw [if_neg hs0] at hr
        cases hE : exceptBranch keccakHex retries ai (envs ai)
            ("transaction failed: " ++ h0) with
        | retOk h1 s1 =>
          rw [hE] at hr
          simp at hr
          obtain ⟨rfl, rfl⟩ := hr
          obtain ⟨h1eq, hW, hH⟩ := exceptBranch_retOk_inv _ _ _ _ _ _ _ hE
          exact ⟨h1eq, ai, le_refl ai, by omega, Or.inr ⟨hW, hH⟩⟩
        | retry le1 =>
          rw [hE] at hr
          simp at hr
          obtain ⟨hs1, k, hk1, hk2, hk3⟩ := ih (ai + 1) (some le1) h s hr
          exact ⟨hs1, k, by omega, by omega, hk3⟩
        | raiseErr le1 =>
          rw [hE] at hr
          simp at hr
    | sendError msg =>
      rw [hsend] at hr
      dsimp only at hr
      cases hE : exceptBranch keccakHex retries ai (envs ai) msg with
      | retOk h1 s1 =>
        rw [hE] at hr
        simp at hr
        obtain ⟨rfl, rfl⟩ := hr
        obtain ⟨h1eq, hW, hH⟩ := exceptBranch_retOk_inv _ _ _ _ _ _ _ hE
        exact ⟨h1eq, ai, le_refl ai, by omega, Or.inr ⟨hW, hH⟩⟩
      | retry le1 =>
        rw [hE] at hr
        simp at hr
        obtain ⟨hs1, k, hk1, hk2, hk3⟩ := ih (ai + 1) (some le1) h s hr
        exact ⟨hs1, k, by omega, by omega, hk3⟩
      | raiseErr le1 =>
        rw [hE] at hr
        simp at hr

/-- C1.  For every invocation of the transaction submitter
(build_sign_send_transaction), if it returns normally then the returned
pair is the transaction hash and a receipt whose status field equals 1:
every success return carries status 1, and the hash/receipt pair stems
from one executed attempt, either as the broadcast hash with its mined
receipt or, on the already-known recovery path, as the locally recomputed
hash with the receipt awaited for it.  Receipts with status different
from 1 lead to a raised error (a TxOutcome.error result), never to a
success return. -/
theorem c1_submitter_returns_only_success_receipts (params : TxParamsIn)
    (keccakHex : String → String) (rs : ℚ) (num den : Nat)
    (envs : Nat → AttemptEnv) (retries : Nat) (h : String) (s : Nat)
    (hok : (build_sign_send_transaction params keccakHex rs num den envs
      retries).1 = TxOutcome.ok h s) :
    s = 1 ∧ ∃ k, k ≤ retries ∧
      ((envs k).send = SendResult.mined h s ∨
        ((envs k).wait = WaitResult.receipt s ∧ h = keccakHex (envs k).signedRaw)) := by
  obtain ⟨hs, k, _, hk2, hk3⟩ :=
    sendLoop_ok_inv params keccakHex rs num den envs retries
      (retries + 1) 0 none h s hok
  exact ⟨hs, k, by omega, hk3⟩

/-- Concrete environment for the C1 witness: the first attempt broadcasts
and mines with receipt status 1. -/
def c1Envs : Nat → AttemptEnv := fun _ =>
  { pendingNonce := 7, baseFeePerGas := some 100, nodeGasPrice := 5,
    estimatedGas := some 1000, signedRaw := "raw0",
    send := SendResult.mined "0xh" 1, wait := WaitResult.receipt 1 }

/-- Witness for C1 at a concrete input. -/
theorem c1_submitter_returns_only_success_receipts_witness :
    1 = 1 ∧ ∃ k, k ≤ 2 ∧
      ((c1Envs k).send = SendResult.mined "0xh" 1 ∨
        ((c1Envs k).wait = WaitResult.receipt 1 ∧ "0xh" = id (c1Envs k).signedRaw)) :=
  c1_submitter_returns_only_success_receipts ⟨none, none, none, none, 0⟩ id
    (3/10) 23 20 c1Envs 2 "0xh" 1 (by decide)


/-- The built transaction always carries the pending nonce fetched for its
attempt: fee defaulting and bumping never touch the nonce field. -/
theorem buildTx_nonce (params : TxParamsIn) (num den : Nat) (env : AttemptEnv)
    (k : Nat) : (buildTx params num den env k).nonce = env.pendingNonce := by
  unfold buildTx apply_default_fees
  dsimp only
  repeat' split
  all_goals rfl

/-- Fee specifications actually exercised by the program: either no fee
field is supplied (the submitter installs its own), or a legacy gas price
alone, or both EIP-1559 fields. -/
def wellFormedFees (params : TxParamsIn) : Prop :=
  (params.maxFeePerGas = none ∧ params.maxPriorityFeePerGas = none) ∨
  (params.gasPrice = none ∧ params.maxFeePerGas ≠ none ∧
    params.maxPriorityFeePerGas ≠ none)

/-- The fee fields of the transaction built at attempt `k` equal the fee
fields of the freshly built (attempt-0) transaction multiplied by the bump
factor `num / den`. -/
def feesBumped (params : TxParamsIn) (num den : Nat) (env : AttemptEnv)
    (k : Nat) : Prop :=
  (buildTx params num den env k).gasPrice =
      Option.map (bumpFee num den) (buildTx params num den env 0).gasPrice ∧
  (buildTx params num den env k).maxFeePerGas =
      Option.map (bumpFee num den) (buildTx params num den env 0).maxFeePerGas ∧
  (buildTx params num den env k).maxPriorityFeePerGas =
      Option.map (bumpFee num den) (buildTx params num den env 0).maxPriorityFeePerGas

/-- On retry attempts the built transaction's fee fields are the freshly
computed fee fields multiplied by the bump factor, for every well-formed
fee specification. -/
theorem buildTx_fees_bumped (params : TxParamsIn) (num den : Nat)
    (env : AttemptEnv) (k : Nat) (hk : 0 < k) (hwf : wellFormedFees params) :
    feesBumped params num den env k := by
  unfold feesBumped buildTx apply_default_fees
  rcases hwf with ⟨hmf, hmp⟩ | ⟨hgp, hmf, hmp⟩
  · rw [hmf, hmp]
    cases hgp : params.gasPrice with
    | some gp => simp [hk]
    | none =>
      cases hbf : env.baseFeePerGas with
      | some bf => simp [hk]
      | none => simp [hk]
  · rw [hgp]
    cases hmfs : params.maxFeePerGas with
    | none => exact absurd hmfs hmf
    | some mf =>
      cases hmps : params.maxPriorityFeePerGas with
      | none => exact absurd hmps hmp
      | some mp => simp [hk]

/-- When the caught message does not contain 'already known', the
except-branch goes straight to the retry/raise classifier. -/
theorem exceptBranch_not_already_known (keccakHex : String → String)
    (retries ai : Nat) (env : AttemptEnv) (msg : String)
    (hak : strContains msg "already known" = false) :
    exceptBranch keccakHex retries ai env msg = afterRecovery retries ai msg msg := by
  unfold exceptBranch
  rw [hak]
  simp

/-- C4 (amended).  For every submission attempt that fails with an error
whose message matches nonce-too-low, replacement-underpriced or generically
underpriced — and does not contain 'already known', whose recovery path is
handled separately — with attempts remaining in the retry budget, the
submitter sleeps the inter-attempt delay and retries with a freshly
fetched pending nonce and, for every well-formed fee specification, fee
fields multiplied by the bump factor; for any other non-already-known
error, or once the budget is exhausted, it raises the last underlying
error to the caller. -/
theorem c4_retry_policy (params : TxParamsIn) (keccakHex : String → String)
    (rs : ℚ) (num den : Nat) (envs : Nat → AttemptEnv) (retries fuel ai : Nat)
    (le : Option String) (msg : String)
    (hsend : (envs ai).send = SendResult.sendError msg)
    (hak : strContains msg "already known" = false) :
    (isRetryableMsg msg = true → ai < retries →
        sendLoop params keccakHex rs num den envs retries (fuel + 1) ai le =
          ((sendLoop params keccakHex rs num den envs retries fuel (ai + 1)
              (some msg)).1,
            { tx := buildTx params num den (envs ai) ai, sleptSeconds := rs } ::
              (sendLoop params keccakHex rs num den envs retries fuel (ai + 1)
                (some msg)).2) ∧
        (buildTx params num den (envs (ai + 1)) (ai + 1)).nonce =
          (envs (ai + 1)).pendingNonce ∧
        (wellFormedFees params → feesBumped params num den (envs (ai + 1)) (ai + 1))) ∧
    (isRetryableMsg msg = false →
        (sendLoop params keccakHex rs num den envs retries (fuel + 1) ai le).1 =
          TxOutcome.error msg) ∧
    (isRetryableMsg msg = true → retries ≤ ai →
        (sendLoop params keccakHex rs num den envs retries (fuel + 1) ai le).1 =
          TxOutcome.error msg) := by
  have hEB := exceptBranch_not_already_known keccakHex retries ai (envs ai) msg hak
  refine ⟨?_, ?_, ?_⟩
  · intro hret hlt
    refine ⟨?_, buildTx_nonce params num den (envs (ai + 1)) (ai + 1), ?_⟩
    · rw [sendLoop, hsend]
      dsimp only
      rw [hEB]
      unfold afterRecovery
      rw [if_pos ⟨hlt, hret⟩]
    · intro hwf
      exact buildTx_fees_bumped params num den (envs (ai + 1)) (ai + 1)
        (Nat.succ_pos ai) hwf
  · intro hret
    rw [sendLoop, hsend]
    dsimp only
    rw [hEB]
    unfold afterRecovery
    rw [if_neg]
    intro hcon
    rw [hcon.2] at hret
    cases hret
  · intro hret hge
    rw [sendLoop, hsend]
    dsimp only
    rw [hEB]
    unfold afterRecovery
    rw [if_neg]
    intro hcon
    omega

/-- Concrete environment for the C4 witness: attempt 0 fails with 'nonce
too low', attempt 1 mines successfully. -/
def c4Envs : Nat → AttemptEnv := fun i =>
  { pendingNonce := 7 + i, baseFeePerGas := some 100, nodeGasPrice := 5,
    estimatedGas := some 1000, signedRaw := "raw",
    send := if i = 0 then SendResult.sendError "nonce too low"
      else SendResult.mined "0xh2" 1,
    wait := WaitResult.waitError "nope" }

/-- Parameters (no fee overrides) for the C4 witness. -/
def c4Params : TxParamsIn := ⟨none, none, none, none, 0⟩

/-- Witness for C4 at a concrete input: the retry after a 'nonce too low'
failure carries the freshly fetched pending nonce and bumped fees. -/
theorem c4_retry_policy_witness :
    (buildTx c4Params 23 20 (c4Envs 1) 1).nonce = (c4Envs 1).pendingNonce ∧
    feesBumped c4Params 23 20 (c4Envs 1) 1 :=
  ⟨((c4_retry_policy c4Params id (3/10) 23 20 c4Envs 2 2 0 none "nonce too low"
      (by decide) (by decide)).1 (by decide) (by decide)).2.1,
    ((c4_retry_policy c4Params id (3/10) 23 20 c4Envs 2 2 0 none "nonce too low"
      (by decide) (by decide)).1 (by decide) (by decide)).2.2 (Or.inl ⟨rfl, rfl⟩)⟩

/-- Concrete environment refuting C4 as stated: every attempt's broadcast
raises 'already known' and the awaited receipt has status 1. -/
def c4CounterEnvs : Nat → AttemptEnv := fun _ =>
  { pendingNonce := 7, baseFeePerGas := some 100, nodeGasPrice := 5,
    estimatedGas := some 1000, signedRaw := "raw0",
    send := SendResult.sendError "already known", wait := WaitResult.receipt 1 }

/-- C4 counterexample.  The claim states that for any error not in the
three retryable classes the submitter raises the last underlying error to
the caller.  Here attempt 0 fails with 'already known' — an error in none
of those classes (second conjunct) — yet the submitter returns success
(third conjunct) via the recovery path instead of raising. -/
theorem c4_counterexample :
    isRetryableMsg "already known" = false ∧
    (c4CounterEnvs 0).send = SendResult.sendError "already known" ∧
    (build_sign_send_transaction ⟨none, none, none, none, 0⟩ (fun s => "k-" ++ s)
      (3/10) 23 20 c4CounterEnvs 2).1 = TxOutcome.ok "k-raw0" 1 := by
  refine ⟨by decide, by decide, by decide⟩

/-- C8.  For every submission attempt whose broadcast error message
contains 'already known' (and matches none of the retryable classes,
which are handled first on the retry path), the submitter does not
resubmit: the attempt's trace is a singleton and the loop never reaches a
further attempt.  It waits for the receipt of the locally recomputed hash
(keccakHex applied to this attempt's signed raw transaction) and returns
success with exactly that hash if and only if the receipt reports status
1; a non-success receipt or a failed wait raises instead. -/
theorem c8_already_known_recovery (params : TxParamsIn)
    (keccakHex : String → String) (rs : ℚ) (num den : Nat)
    (envs : Nat → AttemptEnv) (retries fuel ai : Nat) (le : Option String)
    (msg : String)
    (hsend : (envs ai).send = SendResult.sendError msg)
    (hak : strContains msg "already known" = true)
    (hnr : isRetryableMsg msg = false) :
    (∀ s, (envs ai).wait = WaitResult.receipt s →
      (s = 1 →
        sendLoop params keccakHex rs num den envs retries (fuel + 1) ai le =
          (TxOutcome.ok (keccakHex (envs ai).signedRaw) s,
            [{ tx := buildTx params num den (envs ai) ai, sleptSeconds := 0 }])) ∧
      (s ≠ 1 →
        sendLoop params keccakHex rs num den envs retries (fuel + 1) ai le =
          (TxOutcome.error ("transaction failed: " ++ keccakHex (envs ai).signedRaw),
            [{ tx := buildTx params num den (envs ai) ai, sleptSeconds := 0 }]))) ∧
    (∀ wm, (envs ai).wait = WaitResult.waitError wm →
      sendLoop params keccakHex rs num den envs retries (fuel + 1) ai le =
        (TxOutcome.error wm,
          [{ tx := buildTx params num den (envs ai) ai, sleptSeconds := 0 }])) := by
  have hcond : ¬(ai < retries ∧ isRetryableMsg msg = true) := by
    intro hcon
    rw [hnr] at hcon
    cases hcon.2
  constructor
  · intro s hW
    constructor
    · intro hs1
      subst hs1
      rw [sendLoop, hsend]
      dsimp only
      unfold exceptBranch
      rw [hak, hW]
      simp
    · intro hs1
      rw [sendLoop, hsend]
      dsimp only
      unfold exceptBranch
      rw [hak, hW]
      dsimp only
      rw [if_neg hs1]
      unfold afterRecovery
      simp only [if_true]
      rw [if_neg hcond]
  · intro wm hW
    rw [sendLoop, hsend]
    dsimp only
    unfold exceptBranch
    rw [hak, hW]
    dsimp only
    unfold afterRecovery
    simp only [if_true]
    rw [if_neg hcond]

/-- Concrete environment for the C8 witness. -/
def c8Envs : Nat → AttemptEnv := fun _ =>
  { pendingNonce := 3, baseFeePerGas := some 100, nodeGasPrice := 5,
    estimatedGas := some 1000, signedRaw := "rawX",
    send := SendResult.sendError "already known", wait := WaitResult.receipt 1 }

/-- Witness for C8 at a concrete input: the recovery returns the locally
recomputed hash with the status-1 receipt, in a single attempt. -/
theorem c8_already_known_recovery_witness :
    sendLoop ⟨none, none, none, none, 0⟩ (fun s => "k-" ++ s) (3/10) 23 20
        c8Envs 2 (2 + 1) 0 none =
      (TxOutcome.ok ((fun s => "k-" ++ s) (c8Envs 0).signedRaw) 1,
        [{ tx := buildTx ⟨none, none, none, none, 0⟩ 23 20 (c8Envs 0) 0,
            sleptSeconds := 0 }]) :=
  ((c8_already_known_recovery ⟨none, none, none, none, 0⟩ (fun s => "k-" ++ s)
      (3/10) 23 20 c8Envs 2 2 0 none "already known"
      (by decide) (by decide) (by decide)).1 1 (by decide)).1 rfl

/-! ## Contest Orchestrator — src/game_manager.py -/

/-- The decision returned by the oracle (alith_client.TradingDecision). -/
structure TradingDecision where
  action : String
  reasoning : String
  confidence : ℚ
  deriving DecidableEq, Repr

/-- The sign-position backend response consumed by _execute_decision:
the optional backend_signature and the optional
signed_message.hashedDirection. -/
structure SignResponse where
  backendSignature : Option String
  hashedDirection : Option String
  deriving DecidableEq, Repr

/-- On-chain calls that _execute_decision / _finish_game submit. -/
inductive ContractCall where
  | post (gameId : Nat) (hashedDirection : String)
  | close (gameId : Nat) (direction nonce : Nat)
  | finish (gameId : Nat) (direction nonce : Nat)
  deriving DecidableEq, Repr

/-- External environment consumed by one _execute_decision call:
the random position nonce, the backend sign-position response (none when
it failed/returned None), the locally computed keccak fallback for
hashedDirection (none when computing it raised), the submitter outcomes
for postPosition and closePosition, and the nonce of the last recorded
position in the database (none when no record exists). -/
structure ExecEnv where
  nonce : Nat
  signResponse : Option SignResponse
  fallbackHash : Option String
  postTxResult : TxOutcome
  closeTxResult : TxOutcome
  lastPositionNonce : Option Nat
  deriving DecidableEq, Repr

/-- Largest uint256 value, used by the source's range checks. -/
def uint256Max : Nat := 2 ^ 256 - 1

/-- `GameManager._execute_decision(game_id, decision, current_position,
position_open_time)`.  Returns the Python result (None is `none`,
True/False are `some`) together with the list of contract calls submitted.
A submitter error is caught by the surrounding except-block and turned
into False; the hold-time of an open position is only logged, never
enforced. -/
def execute_decision (gameId : Nat) (decision : TradingDecision)
    (currentPosition : Option String) (env : ExecEnv) :
    Option Bool × List ContractCall :=
  if (decision.action = "open_long" ∨ decision.action = "open_short") ∧
      optStrTruthy currentPosition = false then
    if gameId > uint256Max then (none, [])
    else if env.nonce > uint256Max then (none, [])
    else
      match env.signResponse with
      | none => (none, [])
      | some sr =>
        match sr.backendSignature with
        | none => (none, [])
        | some _ =>
          let hashedDirection? :=
            match sr.hashedDirection with
            | some hd => some hd
            | none => env.fallbackHash
          match hashedDirection? with
          | none => (none, [])
          | some hd =>
            if gameId > uint256Max then (none, [])
            else
              match env.postTxResult with
              | TxOutcome.ok _ _ => (some true, [ContractCall.post gameId hd])
              | TxOutcome.error _ => (some false, [ContractCall.post gameId hd])
  else if decision.action = "close_position" ∧ optStrTruthy currentPosition = true then
    let direction : Nat := if currentPosition = some "long" then 0 else 1
    let nonce := env.lastPositionNonce.getD 0
    if gameId > uint256Max then (none, [])
    else
      let nonce := if nonce > uint256Max then 0 else nonce
      match env.closeTxResult with
      | TxOutcome.ok _ _ => (some true, [ContractCall.close gameId direction nonce])
      | TxOutcome.error _ => (some false, [ContractCall.close gameId direction nonce])
  else (some false, [])

/-- One participant's position as read from the games(id) contract view. -/
structure PositionInfo where
  openingPrice : Nat
  hashedDirection : String
  state : Nat
  deriving DecidableEq, Repr

/-- The games(id) contract view as decoded by get_game_info. -/
structure GameInfo where
  betAmount : Nat
  player1 : String
  gameEndTimestamp : Int
  player1Pool : String
  player2 : String
  player2Pool : String
  state : Nat
  player1Position : PositionInfo
  player2Position : PositionInfo
  player1Pnl : Int
  player2Pnl : Int
  deriving DecidableEq, Repr

/-- Market data returned by the price feed for one cycle. -/
structure MarketData where
  currentPrice : ℚ
  priceHistory : List ℚ
  deriving DecidableEq, Repr

/-- The position-tracking variables of one _game_loop task. -/
structure LoopState where
  currentPosition : Option String
  positionEntryPrice : Option ℚ
  positionOpenTime : Option Int
  deriving DecidableEq, Repr

/-- External environment consumed by one iteration of the game loop:
the contract view, the clock reading (integer-second granularity), the
market read (none when it raised), the oracle decision (none when the
oracle call raised), and the environment for _execute_decision. -/
structure IterEnv where
  gameInfo : GameInfo
  now : Int
  marketData : Option MarketData
  decision : Option TradingDecision
  execEnv : ExecEnv
  deriving DecidableEq, Repr

/-- How one loop iteration ended. -/
inductive StepExit where
  | finished
  | notStarted
  | timeout
  | autoClosed
  | marketFailed
  | oracleFailed
  | cycled
  deriving DecidableEq, Repr

/-- Observable record of one loop iteration. -/
structure StepReport where
  exit : StepExit
  oracleInvoked : Bool
  decision : Option TradingDecision
  executeResult : Option (Option Bool)
  calls : List ContractCall
  finishCalled : Bool
  deriving DecidableEq, Repr

/-- One iteration of the while-body of GameManager._game_loop, as a state
transition on the tracked position variables.  The oracle's game-state
snapshot (pools, pnl, opponent flags) is built only to be handed to the
external oracle, whose answer arrives through env.decision. -/
def game_loop_step (gameId : Nat) (st : LoopState) (env : IterEnv) :
    LoopState × StepReport :=
  let gi := env.gameInfo
  if gi.state = 3 then
    (st, ⟨StepExit.finished, false, none, none, [], false⟩)
  else if ¬gi.state = 2 then
    (st, ⟨StepExit.notStarted, false, none, none, [], false⟩)
  else if gi.gameEndTimestamp > 0 ∧ env.now > gi.gameEndTimestamp then
    (st, ⟨StepExit.timeout, false, none, none, [], true⟩)
  else if gi.gameEndTimestamp > 0 ∧ optStrTruthy st.currentPosition = true ∧
      gi.gameEndTimestamp - env.now ≤ 5 then
    let closeDecision : TradingDecision :=
      ⟨"close_position", "Auto-close: less than 5 seconds remaining", 1⟩
    let ex := execute_decision gameId closeDecision st.currentPosition env.execEnv
    (⟨none, none, none⟩,
      ⟨StepExit.autoClosed, false, some closeDecision, some ex.1, ex.2, false⟩)
  else
    match env.marketData with
    | none => (st, ⟨StepExit.marketFailed, false, none, none, [], false⟩)
    | some md =>
      match env.decision with
      | none => (st, ⟨StepExit.oracleFailed, true, none, none, [], false⟩)
      | some d =>
        let ex := execute_decision gameId d st.currentPosition env.execEnv
        let success := ex.1
        let st' :=
          if success = some true ∧ d.action = "open_long" then
            (⟨some "long", some md.currentPrice, some env.now⟩ : LoopState)
          else if success = some true ∧ d.action = "open_short" then
            (⟨some "short", some md.currentPrice, some env.now⟩ : LoopState)
          else if success = some true ∧ d.action = "close_position" ∧
              optStrTruthy st.currentPosition = true then
            (⟨none, none, none⟩ : LoopState)
          else st
        (st', ⟨StepExit.cycled, true, some d, some success, ex.2, false⟩)

/-- The game loop run over a list of per-iteration environments, breaking
when an iteration reports finished or timeout (the source's break
statements). -/
def game_loop_run (gameId : Nat) :
    LoopState → List IterEnv → LoopState × List StepReport
  | st, [] => (st, [])
  | st, e :: es =>
    let r := game_loop_step gameId st e
    if r.2.exit = StepExit.finished ∨ r.2.exit = StepExit.timeout then
      (r.1, [r.2])
    else
      let rest := game_loop_run gameId r.1 es
      (rest.1, r.2 :: rest.2)

/-- Number of forced auto-close decisions in a run. -/
def countForcedCloses (reps : List StepReport) : Nat :=
  (reps.filter (fun r => r.exit = StepExit.autoClosed)).length

/-- Did this iteration successfully open a position? -/
def isSuccessfulOpen (r : StepReport) : Bool :=
  match r.decision with
  | some d =>
    (decide (d.action = "open_long") || decide (d.action = "open_short")) &&
      decide (r.executeResult = some (some true))
  | none => false

set_option maxHeartbeats 2000000 in
/-- A step that reports the forced auto-close exit clears all three
position-tracking variables, regardless of the submission outcome. -/
theorem step_clears_of_autoClosed (gameId : Nat) (st : LoopState) (env : IterEnv)
    (h : (game_loop_step gameId st env).2.exit = StepExit.autoClosed) :
    (game_loop_step gameId st env).1 = ⟨none, none, none⟩ := by
  unfold game_loop_step at h ⊢
  dsimp only at h ⊢
  rcases hmd : env.marketData with _ | md <;> rw [hmd] at h <;> dsimp only at h ⊢
  · split_ifs at h ⊢ <;> first | rfl | exact absurd h (by decide)
  · rcases hdec : env.decision with _ | d <;> rw [hdec] at h <;>
      dsimp only at h ⊢ <;> split_ifs at h ⊢ <;>
      first | rfl | exact absurd h (by decide)

set_option maxHeartbeats 2000000 in
/-- A step that does not take the forced auto-close path and whose
execute result is not a confirmed success leaves the position-tracking
state unchanged. -/
theorem step_id_of_not_success (gameId : Nat) (st : LoopState) (env : IterEnv)
    (hex : (game_loop_step gameId st env).2.exit ≠ StepExit.autoClosed)
    (hs : (game_loop_step gameId st env).2.executeResult ≠ some (some true)) :
    (game_loop_step gameId st env).1 = st := by
  unfold game_loop_step at hex hs ⊢
  dsimp only at hex hs ⊢
  rcases hmd : env.marketData with _ | md <;> rw [hmd] at hex hs <;>
    dsimp only at hex hs ⊢
  · split_ifs at hex hs ⊢ <;> first | rfl | exact absurd rfl hex
  · rcases hdec : env.decision with _ | d <;> rw [hdec] at hex hs <;>
      dsimp only at hex hs ⊢ <;> split_ifs at hex hs ⊢ <;>
      first
        | rfl
        | exact absurd rfl hex
        | (rename_i hc; exact absurd (congrArg Option.some hc.1) hs)

set_option maxHeartbeats 2000000 in
/-- The forced auto-close path is taken only when a position is tracked
(Python-truthy current position) at entry. -/
theorem step_autoClosed_requires_truthy (gameId : Nat) (st : LoopState)
    (env : IterEnv)
    (h : (game_loop_step gameId st env).2.exit = StepExit.autoClosed) :
    optStrTruthy st.currentPosition = true := by
  unfold game_loop_step at h
  dsimp only at h
  rcases hmd : env.marketData with _ | md <;> rw [hmd] at h <;> dsimp only at h
  · split_ifs at h <;>
      first | exact absurd h (by decide) | (rename_i hc; exact hc.2.1)
  · rcases hdec : env.decision with _ | d <;> rw [hdec] at h <;>
      dsimp only at h <;> split_ifs at h <;>
      first | exact absurd h (by decide) | (rename_i hc; exact hc.2.1)

set_option maxHeartbeats 2000000 in
/-- If no position is tracked at entry and the step does not successfully
open one, no position is tracked after the step either. -/
theorem step_falsy_stays (gameId : Nat) (st : LoopState) (env : IterEnv)
    (hf : optStrTruthy st.currentPosition = false)
    (hno : isSuccessfulOpen (game_loop_step gameId st env).2 = false) :
    optStrTruthy (game_loop_step gameId st env).1.currentPosition = false := by
  unfold game_loop_step at hno ⊢
  dsimp only at hno ⊢
  rcases hmd : env.marketData with _ | md <;> rw [hmd] at hno <;>
    dsimp only at hno ⊢
  · split_ifs at hno ⊢ <;>
      first
        | exact hf
        | (rename_i hc; exact absurd hc.2.1 (by simp [hf]))
        | simp_all [isSuccessfulOpen]
  · rcases hdec : env.decision with _ | d <;> rw [hdec] at hno <;>
      dsimp only at hno ⊢ <;> split_ifs at hno ⊢ <;>
      first
        | exact hf
        | rfl
        | (rename_i hc; exact absurd hc.2.1 (by simp [hf]))
        | simp_all [isSuccessfulOpen, optStrTruthy]

/-- C2 (amended).  In every decision cycle of the game loop, the tracked
position state (current position, entry price, open time) is left exactly
unchanged whenever the executed action does not confirm successfully —
on the oracle decision path as well as on every non-executing path — so
the next cycle can retry the same intended action; on the forced
auto-close path, however, the tracked position state is cleared
unconditionally, even when the close submission fails. -/
theorem c2_position_state_on_failure (gameId : Nat) (st : LoopState)
    (env : IterEnv) :
    ((game_loop_step gameId st env).2.exit ≠ StepExit.autoClosed →
      (game_loop_step gameId st env).2.executeResult ≠ some (some true) →
      (game_loop_step gameId st env).1 = st) ∧
    ((game_loop_step gameId st env).2.exit = StepExit.autoClosed →
      (game_loop_step gameId st env).1 = ⟨none, none, none⟩) :=
  ⟨fun hex hs => step_id_of_not_success gameId st env hex hs,
    fun h => step_clears_of_autoClosed gameId st env h⟩

/-- Execute environment for the C2 counterexample: the closePosition
submission fails (the submitter raises, _execute_decision returns False). -/
def c2ExecEnv : ExecEnv :=
  ⟨5, none, none, TxOutcome.error "x", TxOutcome.error "execution reverted",
    some 42⟩

/-- Iteration environment for the C2 counterexample: contest live
(state 2), 4 seconds remaining, position open. -/
def c2Env : IterEnv :=
  ⟨⟨1, "p1", 100, "poolA", "p2", "poolB", 2, ⟨0, "h", 0⟩, ⟨0, "h", 0⟩, 0, 0⟩,
    96, none, none, c2ExecEnv⟩

/-- Loop state for the C2 counterexample: a long position is tracked. -/
def c2St : LoopState := ⟨some "long", some 100, some 0⟩

/-- C2 counterexample.  The claim requires that a failed submission leave
the tracked position state unchanged on every path that issues a close,
including the forced auto-close path.  Here the forced auto-close fires
(first conjunct), its close submission fails (second conjunct, result
False), yet the tracked position state is cleared rather than left
unchanged (third and fourth conjuncts). -/
theorem c2_counterexample :
    (game_loop_step 1 c2St c2Env).2.exit = StepExit.autoClosed ∧
    (game_loop_step 1 c2St c2Env).2.executeResult = some (some false) ∧
    c2St.currentPosition = some "long" ∧
    (game_loop_step 1 c2St c2Env).1.currentPosition = none := by
  refine ⟨by decide, by decide, by decide, by decide⟩

/-- Execute environment for the C2 witness: closePosition fails. -/
def c2wExecEnv : ExecEnv :=
  ⟨5, none, none, TxOutcome.error "x", TxOutcome.error "execution reverted",
    some 42⟩

/-- Iteration environment for the C2 witness: live contest far from its
end, oracle decides to close, the submission fails. -/
def c2wEnv : IterEnv :=
  ⟨⟨1, "p1", 100, "poolA", "p2", "poolB", 2, ⟨0, "h", 0⟩, ⟨0, "h", 0⟩, 0, 0⟩,
    50, some ⟨100, []⟩, some ⟨"close_position", "take profit", 1⟩, c2wExecEnv⟩

/-- Witness for C2 (amended) at a concrete input: a failed close on the
oracle decision path leaves the tracked position state unchanged. -/
theorem c2_position_state_on_failure_witness :
    (game_loop_step 1 ⟨some "long", some 100, some 0⟩ c2wEnv).1 =
      ⟨some "long", some 100, some 0⟩ :=
  (c2_position_state_on_failure 1 ⟨some "long", some 100, some 0⟩ c2wEnv).1
    (by decide) (by decide)

/-- C9.  For every call to _execute_decision with an open action while a
position is already tracked, or a close action while none is tracked, or
a hold action, no transaction is submitted (empty call list) and the
result is falsy (False); hence an execute call can never create a second
open position for a contest. -/
theorem c9_execute_no_double_position (gameId : Nat)
    (decision : TradingDecision) (cp : Option String) (env : ExecEnv)
    (h : ((decision.action = "open_long" ∨ decision.action = "open_short") ∧
            (cp = some "long" ∨ cp = some "short")) ∨
          (decision.action = "close_position" ∧ cp = none) ∨
          decision.action = "hold") :
    execute_decision gameId decision cp env = (some false, []) := by
  unfold execute_decision
  rcases h with ⟨ha, hcp⟩ | ⟨ha, hcp⟩ | ha
  · rcases ha with ha | ha <;> rcases hcp with hcp | hcp <;>
      rw [ha, hcp] <;> rw [if_neg (by decide), if_neg (by decide)]
  · rw [ha, hcp, if_neg (by decide), if_neg (by decide)]
  · rw [ha]
    have hcond1 : ¬((("hold" : String) = "open_long" ∨
        ("hold" : String) = "open_short") ∧ optStrTruthy cp = false) := by
      rintro ⟨h1 | h1, -⟩ <;> exact absurd h1 (by decide)
    have hcond2 : ¬(("hold" : String) = "close_position" ∧
        optStrTruthy cp = true) := by
      rintro ⟨h1, -⟩
      exact absurd h1 (by decide)
    rw [if_neg hcond1, if_neg hcond2]

/-- Witness for C9 at a concrete input: a hold decision submits nothing
and returns False. -/
theorem c9_execute_no_double_position_witness :
    execute_decision 7 ⟨"hold", "no action", 1⟩ none
      ⟨5, none, none, TxOutcome.error "x", TxOutcome.error "y", some 3⟩ =
      (some false, []) :=
  c9_execute_no_double_position 7 ⟨"hold", "no action", 1⟩ none
    ⟨5, none, none, TxOutcome.error "x", TxOutcome.error "y", some 3⟩
    (Or.inr (Or.inr rfl))

/-- In a run starting with no tracked position, if no iteration
successfully opens a position, no forced auto-close is ever issued. -/
theorem run_no_open_falsy_count_zero (gameId : Nat) :
    ∀ (envs : List IterEnv) (st : LoopState),
    optStrTruthy st.currentPosition = false →
    (∀ r ∈ (game_loop_run gameId st envs).2, isSuccessfulOpen r = false) →
    countForcedCloses (game_loop_run gameId st envs).2 = 0 := by
  intro envs
  induction envs with
  | nil => intro st hf hno; rfl
  | cons e es ih =>
    intro st hf hno
    rw [game_loop_run] at hno ⊢
    dsimp only at hno ⊢
    by_cases hbr : (game_loop_step gameId st e).2.exit = StepExit.finished ∨
        (game_loop_step gameId st e).2.exit = StepExit.timeout
    · rw [if_pos hbr] at hno ⊢
      unfold countForcedCloses
      rcases hbr with hbr | hbr <;> simp [List.filter, hbr]
    · rw [if_neg hbr] at hno ⊢
      have h1 := hno _ (List.mem_cons_self _ _)
      have h2 : ∀ r ∈ (game_loop_run gameId (game_loop_step gameId st e).1 es).2,
          isSuccessfulOpen r = false :=
        fun r hr => hno r (List.mem_cons_of_mem _ hr)
      have hnac : (game_loop_step gameId st e).2.exit ≠ StepExit.autoClosed := by
        intro hac
        have := step_autoClosed_requires_truthy gameId st e hac
        rw [hf] at this
        cases this
      have hf1 := step_falsy_stays gameId st e hf h1
      have hrest := ih (game_loop_step gameId st e).1 hf1 h2
      unfold countForcedCloses at hrest ⊢
      simp [List.filter, hnac, hrest]

/-- In any run where no iteration successfully opens a position, at most
one forced auto-close is issued. -/
theorem run_no_open_count_le_one (gameId : Nat) :
    ∀ (envs : List IterEnv) (st : LoopState),
    (∀ r ∈ (game_loop_run gameId st envs).2, isSuccessfulOpen r = false) →
    countForcedCloses (game_loop_run gameId st envs).2 ≤ 1 := by
  intro envs
  induction envs with
  | nil => intro st hno; exact Nat.zero_le 1
  | cons e es ih =>
    intro st hno
    rw [game_loop_run] at hno ⊢
    dsimp only at hno ⊢
    by_cases hbr : (game_loop_step gameId st e).2.exit = StepExit.finished ∨
        (game_loop_step gameId st e).2.exit = StepExit.timeout
    · rw [if_pos hbr] at hno ⊢
      unfold countForcedCloses
      rcases hbr with hbr | hbr <;> simp [List.filter, hbr]
    · rw [if_neg hbr] at hno ⊢
      have h1 := hno _ (List.mem_cons_self _ _)
      have h2 : ∀ r ∈ (game_loop_run gameId (game_loop_step gameId st e).1 es).2,
          isSuccessfulOpen r = false :=
        fun r hr => hno r (List.mem_cons_of_mem _ hr)
      by_cases hac : (game_loop_step gameId st e).2.exit = StepExit.autoClosed
      · have hclr := step_clears_of_autoClosed gameId st e hac
        have hf1 : optStrTruthy (game_loop_step gameId st e).1.currentPosition
            = false := by
          rw [hclr]
          rfl
        have hz := run_no_open_falsy_count_zero gameId es
          (game_loop_step gameId st e).1 hf1 h2
        unfold countForcedCloses at hz ⊢
        simp [List.filter, hac, hz]
      · have hrest := ih (game_loop_step gameId st e).1 h2
        unfold countForcedCloses at hrest ⊢
        simp [List.filter, hac]
        exact hrest

/-- C5.  (a) Whenever the contest is live (state 2), its end timestamp is
set and not yet passed, at most 5 seconds remain, and a position is
tracked, the loop iteration issues the forced close decision (action
close_position, confidence 1.0) without invoking the oracle, and clears
the tracked position.  (b) With no tracked position, the forced close is
never issued, so immediately after a forced close (which clears the
position) no second one can fire for the same open position.  (c) Over
any run in which no iteration successfully opens a position, at most one
forced auto-close is issued before the run ends (by the contest reaching
finished or otherwise). -/
theorem c5_forced_close_exactly_once (gameId : Nat) :
    (∀ (st : LoopState) (env : IterEnv),
      env.gameInfo.state = 2 →
      env.gameInfo.gameEndTimestamp > 0 →
      env.now ≤ env.gameInfo.gameEndTimestamp →
      env.gameInfo.gameEndTimestamp - env.now ≤ 5 →
      optStrTruthy st.currentPosition = true →
      (game_loop_step gameId st env).2.exit = StepExit.autoClosed ∧
      (game_loop_step gameId st env).2.oracleInvoked = false ∧
      (game_loop_step gameId st env).2.decision =
        some ⟨"close_position", "Auto-close: less than 5 seconds remaining", 1⟩ ∧
      (game_loop_step gameId st env).1.currentPosition = none) ∧
    (∀ (st : LoopState) (env : IterEnv),
      optStrTruthy st.currentPosition = false →
      (game_loop_step gameId st env).2.exit ≠ StepExit.autoClosed) ∧
    (∀ (st : LoopState) (envs : List IterEnv),
      (∀ r ∈ (game_loop_run gameId st envs).2, isSuccessfulOpen r = false) →
      countForcedCloses (game_loop_run gameId st envs).2 ≤ 1) := by
  refine ⟨?_, ?_, ?_⟩
  · intro st env h2 hend hnow h5 htr
    unfold game_loop_step
    dsimp only
    rw [if_neg (by rw [h2]; decide)]
    rw [if_neg (by rw [h2]; decide)]
    rw [if_neg (fun hcon => absurd hcon.2 (not_lt.mpr hnow))]
    rw [if_pos ⟨hend, htr, h5⟩]
    exact ⟨rfl, rfl, rfl, rfl⟩
  · intro st env hf hac
    have := step_autoClosed_requires_truthy gameId st env hac
    rw [hf] at this
    cases this
  · intro st envs hno
    exact run_no_open_count_le_one gameId envs st hno

/-- Execute environment for the C5 witness: the close submission mines
successfully. -/
def c5ExecEnv : ExecEnv :=
  ⟨5, none, none, TxOutcome.error "x", TxOutcome.ok "0xc" 1, some 42⟩

/-- Iteration environment for the C5 witness: live contest with 4 seconds
remaining. -/
def c5Env : IterEnv :=
  ⟨⟨1, "p1", 100, "poolA", "p2", "poolB", 2, ⟨0, "h", 0⟩, ⟨0, "h", 0⟩, 0, 0⟩,
    96, none, none, c5ExecEnv⟩

/-- Witness for C5 at a concrete input: the threshold crossing with an
open position issues the forced close (confidence 1.0, oracle bypassed)
and clears the position. -/
theorem c5_forced_close_exactly_once_witness :
    (game_loop_step 1 ⟨some "short", some 100, some 0⟩ c5Env).2.exit =
        StepExit.autoClosed ∧
    (game_loop_step 1 ⟨some "short", some 100, some 0⟩ c5Env).2.oracleInvoked =
        false ∧
    (game_loop_step 1 ⟨some "short", some 100, some 0⟩ c5Env).2.decision =
      some ⟨"close_position", "Auto-close: less than 5 seconds remaining", 1⟩ ∧
    (game_loop_step 1 ⟨some "short", some 100, some 0⟩
        c5Env).1.currentPosition = none :=
  (c5_forced_close_exactly_once 1).1 ⟨some "short", some 100, some 0⟩ c5Env
    (by decide) (by decide) (by decide) (by decide) (by decide)

/-! ## Discovery loop — GameManager._monitor_games -/

/-- The playerGameInfo(address) contract view. -/
structure PlayerGameInfo where
  inGame : Bool
  gameId : Nat
  role : Nat
  deriving DecidableEq, Repr

/-- The orchestrator's task registry: active_games as an insertion-ordered
association of game id to whether its task is done. -/
structure MonitorState where
  activeGames : List (Nat × Bool)
  deriving DecidableEq, Repr

/-- The game ids currently tracked. -/
def activeKeys (st : MonitorState) : List Nat :=
  st.activeGames.map Prod.fst

/-- Observable actions of one discovery tick. -/
structure TickReport where
  attemptedJoin : Bool
  startedTracking : Option Nat
  deriving DecidableEq, Repr

/-- The track-or-join section of one _monitor_games tick: when not in a
game, run the find-and-join path only if no task is tracked; when in a
game, ensure a monitoring task exists for it.  The find-and-join path
itself only talks to the backend (add-opponent), so it creates no task. -/
def monitor_tick_track (st : MonitorState) (info : PlayerGameInfo) :
    MonitorState × TickReport :=
  if !info.inGame then
    if st.activeGames.isEmpty then (st, ⟨true, none⟩)
    else (st, ⟨false, none⟩)
  else
    if info.gameId ∈ activeKeys st then (st, ⟨false, none⟩)
    else
      ({ activeGames := st.activeGames ++ [(info.gameId, false)] },
        ⟨false, some info.gameId⟩)

/-- The cleanup section of one tick: completed tasks are removed. -/
def monitor_tick_cleanup (st : MonitorState) : MonitorState :=
  { activeGames := st.activeGames.filter (fun g => !g.2) }

/-- One discovery tick: track-or-join, then cleanup of completed tasks. -/
def monitor_tick (st : MonitorState) (info : PlayerGameInfo) :
    MonitorState × TickReport :=
  let r := monitor_tick_track st info
  (monitor_tick_cleanup r.1, r.2)

/-- C7.  For every discovery tick in which playerGameInfo reports
inGame=true for contest X, the tick ensures a monitoring task for X
exists (it is tracked after the track phase, freshly created if absent)
and never executes the find-and-join path — regardless of what the
backend listing would return; conversely the find-and-join path runs only
when inGame=false and no game task at all is tracked. -/
theorem c7_in_game_never_joins (st : MonitorState) (info : PlayerGameInfo) :
    (info.inGame = true →
      (monitor_tick st info).2.attemptedJoin = false ∧
      info.gameId ∈ activeKeys (monitor_tick_track st info).1) ∧
    ((monitor_tick st info).2.attemptedJoin = true →
      info.inGame = false ∧ st.activeGames = []) := by
  constructor
  · intro hin
    by_cases hmem : info.gameId ∈ activeKeys st
    · constructor
      · simp [monitor_tick, monitor_tick_track, hin, hmem]
      · simpa [monitor_tick_track, hin, hmem] using hmem
    · constructor
      · simp [monitor_tick, monitor_tick_track, hin, hmem]
      · unfold monitor_tick_track
        rw [hin]
        rw [if_neg (by decide), if_neg hmem]
        unfold activeKeys
        simp
  · intro hjoin
    cases hin : info.inGame
    · by_cases hemp : st.activeGames.isEmpty
      · exact ⟨rfl, by simpa using hemp⟩
      · exfalso
        simp [monitor_tick, monitor_tick_track, hin, hemp] at hjoin
    · exfalso
      by_cases hmem : info.gameId ∈ activeKeys st <;>
        simp [monitor_tick, monitor_tick_track, hin, hmem] at hjoin

/-- Witness for C7 at a concrete input: in game 9 while the backend would
list other contests, the tick tracks game 9 and does not join. -/
theorem c7_in_game_never_joins_witness :
    (monitor_tick ⟨[]⟩ ⟨true, 9, 2⟩).2.attemptedJoin = false ∧
    9 ∈ activeKeys (monitor_tick_track ⟨[]⟩ ⟨true, 9, 2⟩).1 :=
  (c7_in_game_never_joins ⟨[]⟩ ⟨true, 9, 2⟩).1 rfl

/-! ## Authenticated Gateway — src/backend_client.py -/

/-- The BackendClient's token pair (user id elided: untouched here). -/
structure AuthState where
  authToken : Option String
  refreshToken : Option String
  deriving DecidableEq, Repr

/-- Outcome of the refresh HTTP POST: a response with a status and the
optional access_token field of its JSON body, or a raised transport
error. -/
inductive RefreshOutcome where
  | resp (status : Nat) (accessToken : Option String)
  | raised (msg : String)
  deriving DecidableEq, Repr

/-- `BackendClient._refresh_access_token`: without a stored refresh token
it fails immediately; on HTTP 200 it succeeds only if the body carries an
access_token (installing it); on any other status it fails and clears the
cached access token; a transport error is caught and fails without
clearing. -/
def refresh_access_token (st : AuthState) (env : RefreshOutcome) :
    Bool × AuthState :=
  match st.refreshToken with
  | none => (false, st)
  | some _ =>
    match env with
    | RefreshOutcome.resp status tok =>
      if status = 200 then
        match tok with
        | some t => (true, { st with authToken := some t })
        | none => (false, st)
      else (false, { st with authToken := none })
    | RefreshOutcome.raised _ => (false, st)

/-- Outcome of the login HTTP POST: a response with a status and the
optional access/refresh token fields of its JSON body, or a raised
transport error. -/
inductive LoginOutcome where
  | resp (status : Nat) (accessToken refreshToken : Option String)
  | raised (msg : String)
  deriving DecidableEq, Repr

/-- `BackendClient._authenticate`: a no-op when an access token is cached;
otherwise logs in, installing both tokens on 200 and raising on any other
status or transport error. -/
def authenticate (st : AuthState) (env : LoginOutcome) :
    Except String AuthState :=
  if st.authToken ≠ none then Except.ok st
  else
    match env with
    | LoginOutcome.resp status a r =>
      if status = 200 then Except.ok ⟨a, r⟩
      else Except.error ("authentication failed: " ++ toString status)
    | LoginOutcome.raised m => Except.error m

/-- One HTTP response as seen by _request_with_retry: status, body text
and the parsed JSON payload (opaque here). -/
structure HttpResponse where
  status : Nat
  text : String
  jsonData : Option String
  deriving DecidableEq, Repr

/-- `BackendClient._request_with_retry`.  Inputs: the session state, the
require_auth flag, the login outcome (consulted only when no token is
cached), the first response, the refresh outcome (consulted only on
401/403) and the retried request's response.  Output: the returned
(status, text, json) response, the final session state, the number of
refresh attempts made and whether the original request was retried. -/
def request_with_retry (st : AuthState) (requireAuth : Bool)
    (login : LoginOutcome) (resp1 : HttpResponse) (refreshEnv : RefreshOutcome)
    (resp2 : HttpResponse) :
    Except String (HttpResponse × AuthState × Nat × Bool) :=
  match (if requireAuth then authenticate st login else Except.ok st) with
  | Except.error e => Except.error e
  | Except.ok st1 =>
    if (resp1.status = 401 ∨ resp1.status = 403) ∧ requireAuth = true then
      let r := refresh_access_token st1 refreshEnv
      if r.1 then Except.ok (resp2, r.2, 1, true)
      else Except.ok (resp1, r.2, 1, false)
    else Except.ok (resp1, st1, 0, false)

/-- C3 counterexample.  The claim states that when the refresh fails, the
cached access token is cleared.  Here the first response is 401, the
refresh endpoint answers 200 but its body lacks access_token, so the
refresh fails (first conjunct) and the original response is returned —
yet the cached access token is left intact (some "old", not cleared). -/
theorem c3_counterexample :
    (refresh_access_token ⟨some "old", some "r"⟩
      (RefreshOutcome.resp 200 none)).1 = false ∧
    request_with_retry ⟨some "old", some "r"⟩ true (LoginOutcome.raised "unused")
        ⟨401, "unauthorized", none⟩ (RefreshOutcome.resp 200 none)
        ⟨200, "ok", none⟩ =
      Except.ok (⟨401, "unauthorized", none⟩, ⟨some "old", some "r"⟩, 1, false) := by
  refine ⟨by decide, rfl⟩

/-- C3 (amended).  For every authenticated request whose first response
is 401 or 403, with an access token cached: exactly one refresh is
attempted; if it succeeds the original request is retried exactly once
and that retry's response is returned unconditionally — even if it is
another 401 — with no second refresh; if it fails the original failing
response is returned, and the cached access token is cleared exactly when
the refresh endpoint answered with a non-200 status (it is left unchanged
when no refresh token is cached, when a 200 refresh response lacks an
access token, or when the refresh request raises). -/
theorem c3_refresh_once (st : AuthState) (t : String) (login : LoginOutcome)
    (resp1 : HttpResponse) (refreshEnv : RefreshOutcome) (resp2 : HttpResponse)
    (htok : st.authToken = some t)
    (h401 : resp1.status = 401 ∨ resp1.status = 403) :
    request_with_retry st true login resp1 refreshEnv resp2 =
      (if (refresh_access_token st refreshEnv).1 then
        Except.ok (resp2, (refresh_access_token st refreshEnv).2, 1, true)
      else Except.ok (resp1, (refresh_access_token st refreshEnv).2, 1, false)) ∧
    ((refresh_access_token st refreshEnv).2.authToken = none ↔
      st.refreshToken ≠ none ∧
        ∃ status tok, refreshEnv = RefreshOutcome.resp status tok ∧
          status ≠ 200) := by
  have hauth : (if true = true then authenticate st login else Except.ok st) =
      Except.ok st := by
    rw [if_pos rfl]
    unfold authenticate
    rw [if_pos (by rw [htok]; exact Option.some_ne_none t)]
  constructor
  · unfold request_with_retry
    rw [hauth]
    dsimp only
    rw [if_pos ⟨h401, rfl⟩]
  · cases hrt : st.refreshToken with
    | none =>
      unfold refresh_access_token
      rw [hrt]
      dsimp only
      constructor
      · intro hcl
        rw [htok] at hcl
        cases hcl
      · intro ⟨hc, _⟩
        exact absurd rfl hc
    | some rt =>
      unfold refresh_access_token
      rw [hrt]
      dsimp only
      cases refreshEnv with
      | resp status tok =>
        dsimp only
        by_cases hs : status = 200
        · rw [if_pos hs]
          cases tok with
          | none =>
            constructor
            · intro hcl
              rw [htok] at hcl
              cases hcl
            · intro ⟨_, s2, t2, heq, hne⟩
              cases heq
              exact absurd hs hne
          | some t2 =>
            constructor
            · intro hcl
              cases hcl
            · intro ⟨_, s2, t3, heq, hne⟩
              cases heq
              exact absurd hs hne
        · rw [if_neg hs]
          constructor
          · intro _
            exact ⟨Option.some_ne_none rt, status, tok, rfl, hs⟩
          · intro _
            rfl
      | raised m =>
        dsimp only
        constructor
        · intro hcl
          rw [htok] at hcl
          cases hcl
        · intro ⟨_, s2, t2, heq, _⟩
          cases heq

/-- Witness for C3 (amended) at a concrete input: a non-200 refresh after
a 401 returns the original response with the access token cleared. -/
theorem c3_refresh_once_witness :
    request_with_retry ⟨some "tok", some "r"⟩ true (LoginOutcome.raised "unused")
        ⟨401, "unauthorized", none⟩ (RefreshOutcome.resp 500 none)
        ⟨200, "ok", none⟩ =
      (if (refresh_access_token ⟨some "tok", some "r"⟩
          (RefreshOutcome.resp 500 none)).1 then
        Except.ok (⟨200, "ok", none⟩,
          (refresh_access_token ⟨some "tok", some "r"⟩
            (RefreshOutcome.resp 500 none)).2, 1, true)
      else
        Except.ok (⟨401, "unauthorized", none⟩,
          (refresh_access_token ⟨some "tok", some "r"⟩
            (RefreshOutcome.resp 500 none)).2, 1, false)) ∧
    ((refresh_access_token ⟨some "tok", some "r"⟩
        (RefreshOutcome.resp 500 none)).2.authToken = none ↔
      (⟨some "tok", some "r"⟩ : AuthState).refreshToken ≠ none ∧
        ∃ status tok, RefreshOutcome.resp 500 none =
          RefreshOutcome.resp status tok ∧ status ≠ 200) :=
  c3_refresh_once ⟨some "tok", some "r"⟩ "tok" (LoginOutcome.raised "unused")
    ⟨401, "unauthorized", none⟩ (RefreshOutcome.resp 500 none) ⟨200, "ok", none⟩
    rfl (Or.inl rfl)

/-! ## Push Channel — src/websocket_client.py -/

/-- A decoded JSON frame, abstracted to the fields the dispatcher reads:
the optional value of its "type" field and whether "signature" and
"original_request" keys are present. -/
structure WsFrame where
  typeField : Option String
  hasSignature : Bool
  hasOriginalRequest : Bool
  deriving DecidableEq, Repr

/-- An inbound websocket message: either undecodable text or a decoded
JSON object. -/
inductive WsInbound where
  | malformed (raw : String)
  | frame (f : WsFrame)
  deriving DecidableEq, Repr

/-- What the listen loop did with one inbound message. -/
inductive WsEvent where
  | dispatched (msgType : String) (handlerRaised : Bool)
  | noHandler (msgType : String)
  | droppedNoType
  | decodeFailed
  deriving DecidableEq, Repr

/-- `WebSocketClient._handle_message`: read the "type" field; a frame
with no (Python-truthy) type but both "signature" and "original_request"
is re-typed as signature_ready; any other frame without a truthy type is
logged and dropped; otherwise dispatch to the registered handler for the
type, logging when none is registered.  A handler error is caught and
logged (handlerRaised), never escaping the loop. -/
def handle_message (registered : List String) (handlerRaises : String → Bool)
    (f : WsFrame) : WsEvent :=
  if optStrTruthy f.typeField = false ∧ f.hasSignature ∧ f.hasOriginalRequest then
    if "signature_ready" ∈ registered then
      WsEvent.dispatched "signature_ready" (handlerRaises "signature_ready")
    else WsEvent.noHandler "signature_ready"
  else if optStrTruthy f.typeField = false then WsEvent.droppedNoType
  else
    let t := f.typeField.getD ""
    if t ∈ registered then WsEvent.dispatched t (handlerRaises t)
    else WsEvent.noHandler t

/-- `WebSocketClient.listen`: each inbound message yields exactly one
event — a JSON decode failure or a handler error is logged and the loop
moves on to the next message with the connection still open. -/
def listen (registered : List String) (handlerRaises : String → Bool)
    (frames : List WsInbound) : List WsEvent :=
  frames.map (fun fr =>
    match fr with
    | WsInbound.malformed _ => WsEvent.decodeFailed
    | WsInbound.frame f => handle_message registered handlerRaises f)

/-- C6.  (1) A frame whose "type" field holds a (nonempty, hence
Python-truthy) string with a registered handler dispatches to that
handler.  (2) A frame without a truthy type but with both "signature" and
"original_request" is dispatched as signature_ready.  (3) Any other frame
without a truthy type is dropped.  (4) The listen loop produces exactly
one event per inbound message and processes a concatenation piecewise, so
malformed frames and handler errors never stop it — the connection-level
loop keeps consuming subsequent frames. -/
theorem c6_push_frame_dispatch (registered : List String)
    (handlerRaises : String → Bool) :
    (∀ (f : WsFrame) (t : String), f.typeField = some t → t ≠ "" →
      t ∈ registered →
      handle_message registered handlerRaises f =
        WsEvent.dispatched t (handlerRaises t)) ∧
    (∀ f : WsFrame, optStrTruthy f.typeField = false → f.hasSignature = true →
      f.hasOriginalRequest = true → "signature_ready" ∈ registered →
      handle_message registered handlerRaises f =
        WsEvent.dispatched "signature_ready" (handlerRaises "signature_ready")) ∧
    (∀ f : WsFrame, optStrTruthy f.typeField = false →
      (f.hasSignature = false ∨ f.hasOriginalRequest = false) →
      handle_message registered handlerRaises f = WsEvent.droppedNoType) ∧
    (∀ frames : List WsInbound,
      (listen registered handlerRaises frames).length = frames.length) ∧
    (∀ xs ys : List WsInbound,
      listen registered handlerRaises (xs ++ ys) =
        listen registered handlerRaises xs ++ listen registered handlerRaises ys) := by
  refine ⟨?_, ?_, ?_, ?_, ?_⟩
  · intro f t ht htne hreg
    have htr : optStrTruthy f.typeField = true := by
      rw [ht]
      unfold optStrTruthy
      simp [htne]
    unfold handle_message
    rw [if_neg (fun hcon => by rw [htr] at hcon; cases hcon.1)]
    rw [if_neg (by rw [htr]; exact fun hcon => by cases hcon)]
    dsimp only
    rw [ht]
    dsimp only [Option.getD]
    rw [if_pos hreg]
  · intro f hft hsig horig hreg
    unfold handle_message
    rw [if_pos ⟨hft, hsig, horig⟩, if_pos hreg]
  · intro f hft hmiss
    unfold handle_message
    rw [if_neg (fun hcon => by
      rcases hmiss with hm | hm <;> rw [hm] at hcon
      · cases hcon.2.1
      · cases hcon.2.2)]
    rw [if_pos hft]
  · intro frames
    unfold listen
    exact List.length_map _ _
  · intro xs ys
    unfold listen
    exact List.map_append _ _ _

/-- Witness for C6 at a concrete input: a typed frame dispatches to its
registered handler, and a three-frame stream (malformed, typed,
fallback) yields one event per frame. -/
theorem c6_push_frame_dispatch_witness :
    handle_message ["signature_ready", "game_joined"] (fun _ => false)
        ⟨some "game_joined", false, false⟩ =
      WsEvent.dispatched "game_joined" false ∧
    (listen ["signature_ready", "game_joined"] (fun _ => false)
        [WsInbound.malformed "oops",
          WsInbound.frame ⟨some "game_joined", false, false⟩,
          WsInbound.frame ⟨none, true, true⟩]).length = 3 :=
  ⟨(c6_push_frame_dispatch ["signature_ready", "game_joined"]
      (fun _ => false)).1 ⟨some "game_joined", false, false⟩ "game_joined"
      rfl (by decide) (by decide),
    (c6_push_frame_dispatch ["signature_ready", "game_joined"]
      (fun _ => false)).2.2.2.1
      [WsInbound.malformed "oops",
        WsInbound.frame ⟨some "game_joined", false, false⟩,
        WsInbound.frame ⟨none, true, true⟩]⟩

/-! ## Price history — src/price_feed.py -/

/-- `UniswapV2PriceFeed.get_price_history(pool, limit)`.  `stored` is the
recorded price list for the pool (timestamps elided — the function drops
them), `fetched` the price that the ensure-step's get_price call records
when no history exists (get_price always appends exactly one price,
falling back to the last known price or the 100.0 default when both the
backend and the pool read fail).  Python's prices[-limit:] keeps the
whole list when limit = 0 and the last limit elements otherwise. -/
def get_price_history (stored : List ℚ) (fetched : ℚ) (limit : Nat) :
    List ℚ :=
  let history := if stored.isEmpty then [fetched] else stored
  let prices := history
  let prices :=
    if prices.length < limit then
      List.replicate (limit - prices.length) (prices.getLast?.getD 100) ++ prices
    else prices
  if limit = 0 then prices else prices.drop (prices.length - limit)

/-- C10.  For every pool state and limit ≥ 1, get_price_history returns
exactly limit prices: with at least limit recorded it returns the last
limit prices in order; with fewer (but some) recorded it left-pads with
the most recent recorded price; with none recorded it returns limit
copies of the price the ensure-step just fetched and recorded (which is
itself the 100.0 default when every price source fails). -/
theorem c10_price_history_padding (stored : List ℚ) (fetched : ℚ)
    (limit : Nat) (hlim : 1 ≤ limit) :
    (get_price_history stored fetched limit).length = limit ∧
    (limit ≤ stored.length →
      get_price_history stored fetched limit =
        stored.drop (stored.length - limit)) ∧
    (stored ≠ [] → stored.length < limit →
      get_price_history stored fetched limit =
        List.replicate (limit - stored.length) (stored.getLast?.getD 100) ++
          stored) ∧
    (stored = [] →
      get_price_history stored fetched limit = List.replicate limit fetched) := by
  have hlim0 : ¬limit = 0 := by omega
  refine ⟨?_, ?_, ?_, ?_⟩
  · unfold get_price_history
    dsimp only
    split_ifs <;> simp_all <;> omega
  · intro hge
    have hne : stored ≠ [] := by
      intro h
      rw [h] at hge
      simp at hge
      omega
    have hemp : stored.isEmpty = false := by
      cases stored with
      | nil => exact absurd rfl hne
      | cons a l => rfl
    unfold get_price_history
    dsimp only
    rw [if_neg hlim0]
    rw [if_neg (show ¬stored.isEmpty = true by rw [hemp]; simp)]
    rw [if_neg (show ¬stored.length < limit by omega)]
  · intro hne hlt
    have hemp : stored.isEmpty = false := by
      cases stored with
      | nil => exact absurd rfl hne
      | cons a l => rfl
    unfold get_price_history
    dsimp only
    rw [if_neg hlim0]
    rw [if_neg (show ¬stored.isEmpty = true by rw [hemp]; simp)]
    rw [if_pos hlt]
    have hlen : (List.replicate (limit - stored.length)
        (stored.getLast?.getD 100) ++ stored).length = limit := by
      simp
      omega
    rw [hlen, Nat.sub_self, List.drop_zero]
  · intro hempty
    subst hempty
    unfold get_price_history
    dsimp only
    rw [if_neg hlim0]
    rw [if_pos (show ([] : List ℚ).isEmpty = true from rfl)]
    obtain ⟨m, rfl⟩ : ∃ m, limit = m + 1 := ⟨limit - 1, by omega⟩
    by_cases hm : m = 0
    · subst hm
      rw [if_neg (show ¬([fetched] : List ℚ).length < 0 + 1 by simp)]
      simp [List.replicate]
    · rw [if_pos (show ([fetched] : List ℚ).length < m + 1 by simp; omega)]
      have hlen : (List.replicate (m + 1 - ([fetched] : List ℚ).length)
          (([fetched] : List ℚ).getLast?.getD 100) ++ [fetched]).length
          = m + 1 := by
        simp
      rw [hlen, Nat.sub_self, List.drop_zero]
      simp only [List.length_singleton, Nat.add_sub_cancel,
        List.getLast?_singleton, Option.getD_some]
      exact (List.replicate_succ' m fetched).symm

/-- Witness for C10 at a concrete input: limit 4 on a two-price history
is left-padded with the most recent price. -/
theorem c10_price_history_padding_witness :
    (get_price_history [3, 7] 5 4).length = 4 ∧
    get_price_history [3, 7] 5 4 =
      List.replicate (4 - ([3, 7] : List ℚ).length)
        (([3, 7] : List ℚ).getLast?.getD 100) ++ [3, 7] :=
  ⟨(c10_price_history_padding [3, 7] 5 4 (by decide)).1,
    (c10_price_history_padding [3, 7] 5 4 (by decide)).2.2.1
      (by decide) (by decide)⟩

end MortalCoin
